import Mathlib

/-!
Shallow embedding of the Ganttifier core (the converter module and the type
declarations of `src/types`): the data model, the validator and the Mermaid
emitter, together with theorems settling the specification claims.

Modelling conventions, mirroring the JavaScript runtime semantics:
- An optional string field (`after`, the string config fields) is
  `Option String`; the JavaScript truthiness test `if (x)` on such a field is
  `optTruthy` (false for a missing field and for the empty string).
- JavaScript `String.prototype.trim` is `trimJS`.
- The `Duration | string` union is the sum type `DurationField`; `unit` is kept
  as a raw string because the validator re-checks it at runtime.
- The `status?: TaskStatus[]` field keeps its declared element type, the
  four-constructor `TaskStatus`.
- The JavaScript `Set<string>` of `validateGanttData` is a `List String` used
  only through membership.
-/

inductive TaskStatus where
  | done
  | active
  | crit
  | milestone
deriving DecidableEq

/-- The string value each `TaskStatus` union member denotes in TypeScript. -/
def statusText : TaskStatus → String
  | .done => "done"
  | .active => "active"
  | .crit => "crit"
  | .milestone => "milestone"

structure Duration where
  value : Int
  unit : String
deriving DecidableEq

/-- The `Duration | string` union used for `GanttTask.duration`. -/
inductive DurationField where
  | dur (d : Duration)
  | str (s : String)
deriving DecidableEq

structure GanttTask where
  id : String
  name : String
  start : String
  duration : DurationField
  status : Option (List TaskStatus) := none
  after : Option String := none
deriving DecidableEq

structure GanttSection where
  name : String
  tasks : List GanttTask
deriving DecidableEq

structure GanttConfig where
  title : Option String := none
  dateFormat : Option String := none
  excludes : Option (List String) := none
  excludeDates : Option (List String) := none
  enableClick : Option Bool := none
  displayMode : Option String := none
  axisFormat : Option String := none
  tickInterval : Option String := none
deriving DecidableEq

structure GanttData where
  config : Option GanttConfig := none
  sections : List GanttSection
deriving DecidableEq

/-- The result record of `convertToMermaidSyntax`.  The TypeScript field
holding the emitted text is called `syntax` in the source; that word is
reserved here, so the field is named `mermaidText`. -/
structure ConversionResult where
  success : Bool
  mermaidText : Option String := none
  error : Option String := none
deriving DecidableEq

/-- JavaScript truthiness of an optional string field: `undefined` and `""`
are falsy. -/
def optTruthy : Option String → Bool
  | none => false
  | some s => s != ""

/-- JavaScript `String.prototype.trim`: drop leading and trailing whitespace. -/
def trimJS (s : String) : String :=
  ⟨((s.data.dropWhile Char.isWhitespace).reverse.dropWhile Char.isWhitespace).reverse⟩

/-- JavaScript `Array.prototype.join(sep)`. -/
def joinSep (sep : String) : List String → String
  | [] => ""
  | [x] => x
  | x :: y :: xs => x ++ sep ++ joinSep sep (y :: xs)

/-- `formatDuration`: renders a Duration object as its value followed by its
unit letter. -/
def formatDuration (duration : Duration) : String :=
  toString duration.value ++ duration.unit

/-- `isDurationString`: the test of the regular expression `^\d+[dwmh]$`. -/
def isDurationString (value : String) : Bool :=
  match value.data.reverse with
  | [] => false
  | u :: rest =>
      (u == 'd' || u == 'w' || u == 'm' || u == 'h') && !rest.isEmpty
        && rest.all Char.isDigit

/-- The test of the regular expression `^\d{4}-\d{2}-\d{2}$` applied to string
durations by `validateTask`. -/
def isDateString (value : String) : Bool :=
  match value.data with
  | [y1, y2, y3, y4, s1, m1, m2, s2, d1, d2] =>
      y1.isDigit && y2.isDigit && y3.isDigit && y4.isDigit && s1 == '-'
        && m1.isDigit && m2.isDigit && s2 == '-' && d1.isDigit && d2.isDigit
  | _ => false

/-- `formatTaskStatus`: comma-space-joins the status tags; empty string for an
absent or empty list. -/
def formatTaskStatus : Option (List TaskStatus) → String
  | none => ""
  | some l => if l.isEmpty then "" else joinSep ", " (l.map statusText)

/-- `task.status?.includes("milestone")` coerced to a boolean
(`undefined` is falsy). -/
def isMilestone : Option (List TaskStatus) → Bool
  | none => false
  | some l => l.contains .milestone

/-- `convertTask`: one Mermaid task line.  In the source the string-duration
case is two branches (shorthand and end date) that both push the raw string. -/
def convertTask (task : GanttTask) : String :=
  let statusStr := formatTaskStatus task.status
  let parts : List String :=
    [task.name]
      ++ (if statusStr = "" then [] else [statusStr])
      ++ [task.id]
      ++ [match task.after with
          | some a => if a = "" then task.start else "after " ++ a
          | none => task.start]
      ++ [match task.duration with
          | .dur d => formatDuration d
          | .str s => s]
  "    " ++ joinSep " : " parts

/-- `convertSection`: the section header line followed by one line per task. -/
def convertSection (s : GanttSection) : List String :=
  ("    section " ++ s.name) :: s.tasks.map convertTask

/-- `convertConfig`: a directive line for each truthy field, in source order;
`excludes` additionally requires a non-empty list.  The fields `excludeDates`,
`enableClick` and `displayMode` are never read. -/
def convertConfig (config : GanttConfig) : List String :=
  (match config.title with
    | some v => if v = "" then [] else ["    title " ++ v]
    | none => [])
  ++ (match config.dateFormat with
    | some v => if v = "" then [] else ["    dateFormat " ++ v]
    | none => [])
  ++ (match config.axisFormat with
    | some v => if v = "" then [] else ["    axisFormat " ++ v]
    | none => [])
  ++ (match config.tickInterval with
    | some v => if v = "" then [] else ["    tickInterval " ++ v]
    | none => [])
  ++ (match config.excludes with
    | some l => if l.isEmpty then [] else ["    excludes " ++ joinSep ", " l]
    | none => [])

/-- The template string of the missing-ID validation error. -/
def msgMissingId (sectionName : String) : String :=
  "Task in section \"" ++ sectionName ++ "\" is missing an ID"

/-- The template string of the missing-name validation error. -/
def msgMissingName (id sectionName : String) : String :=
  "Task \"" ++ id ++ "\" in section \"" ++ sectionName ++ "\" is missing a name"

/-- The template string of the missing start-or-dependency validation error. -/
def msgMissingStart (id sectionName : String) : String :=
  "Task \"" ++ id ++ "\" in section \"" ++ sectionName
    ++ "\" is missing a start date or dependency"

/-- The template string of the missing-duration validation error. -/
def msgMissingDuration (id sectionName : String) : String :=
  "Task \"" ++ id ++ "\" in section \"" ++ sectionName ++ "\" is missing a duration"

/-- The template string of the invalid duration format validation error. -/
def msgInvalidFormat (id s : String) : String :=
  "Task \"" ++ id ++ "\" has invalid duration format: \"" ++ s ++ "\""

/-- The template string of the invalid duration value validation error. -/
def msgInvalidValue (id : String) (v : Int) : String :=
  "Task \"" ++ id ++ "\" has invalid duration value: " ++ toString v

/-- The template string of the invalid duration unit validation error. -/
def msgInvalidUnit (id unit : String) : String :=
  "Task \"" ++ id ++ "\" has invalid duration unit: " ++ unit

/-- The template string of the duplicate-ID validation error. -/
def msgDuplicate (id : String) : String :=
  "Duplicate task ID found: \"" ++ id ++ "\""

/-- The template string of the non-existent dependency validation error. -/
def msgNonExistent (id after : String) : String :=
  "Task \"" ++ id ++ "\" depends on non-existent task: \"" ++ after ++ "\""

/-- JavaScript truthiness of the `Duration | string` union: an object is
always truthy, a string is truthy iff non-empty. -/
def durationTruthy : DurationField → Bool
  | .dur _ => true
  | .str s => s != ""

/-- The duration checks of `validateTask` (presence, string format, object
value and unit), split out so theorems can name the point reached once the
id, name and start checks have passed. -/
def validateDurationChecks (task : GanttTask) (sectionName : String) : Option String :=
  if durationTruthy task.duration = false then
    some (msgMissingDuration task.id sectionName)
  else match task.duration with
    | .str s =>
        if isDurationString s = false ∧ isDateString s = false then
          some (msgInvalidFormat task.id s)
        else none
    | .dur d =>
        if d.value < 0 ∨ (isMilestone task.status = false ∧ d.value = 0) then
          some (msgInvalidValue task.id d.value)
        else if d.unit ∉ ["d", "w", "h", "m"] then
          some (msgInvalidUnit task.id d.unit)
        else none

/-- `validateTask`: the per-task checks, in source order, first error wins. -/
def validateTask (task : GanttTask) (sectionName : String) : Option String :=
  if task.id = "" ∨ trimJS task.id = "" then some (msgMissingId sectionName)
  else if task.name = "" ∨ trimJS task.name = "" then
    some (msgMissingName task.id sectionName)
  else if optTruthy task.after = false ∧ (task.start = "" ∨ trimJS task.start = "") then
    some (msgMissingStart task.id sectionName)
  else validateDurationChecks task sectionName

/-- The `for` loop over a section's tasks inside `validateSection`. -/
def firstTaskError (tasks : List GanttTask) (sectionName : String) : Option String :=
  match tasks with
  | [] => none
  | t :: rest =>
      match validateTask t sectionName with
      | some e => some e
      | none => firstTaskError rest sectionName

/-- `validateSection`. -/
def validateSection (s : GanttSection) : Option String :=
  if s.name = "" ∨ trimJS s.name = "" then some "Section is missing a name"
  else if s.tasks = [] then some ("Section \"" ++ s.name ++ "\" has no tasks")
  else firstTaskError s.tasks s.name

/-- The duplicate-ID scan of one section's tasks against the IDs seen so far
(the JavaScript `Set` of `validateGanttData`), returning either the error or
the enlarged set. -/
def dupScan (tasks : List GanttTask) (seen : List String) : String ⊕ List String :=
  match tasks with
  | [] => .inr seen
  | t :: rest =>
      if t.id ∈ seen then .inl (msgDuplicate t.id)
      else dupScan rest (t.id :: seen)

/-- The first loop of `validateGanttData`: each section is structurally
validated and then immediately scanned for duplicate IDs before the loop moves
to the next section. -/
def validateSectionsLoop (sections : List GanttSection) (seen : List String) :
    Option String × List String :=
  match sections with
  | [] => (none, seen)
  | s :: rest =>
      match validateSection s with
      | some e => (some e, seen)
      | none =>
          match dupScan s.tasks seen with
          | .inl e => (some e, seen)
          | .inr seen2 => validateSectionsLoop rest seen2

/-- The dependency-existence scan over one section's tasks. -/
def depCheckTasks (tasks : List GanttTask) (taskIds : List String) : Option String :=
  match tasks with
  | [] => none
  | t :: rest =>
      match t.after with
      | some a =>
          if a ≠ "" ∧ a ∉ taskIds then some (msgNonExistent t.id a)
          else depCheckTasks rest taskIds
      | none => depCheckTasks rest taskIds

/-- The dependency-existence scan (second loop of `validateGanttData`). -/
def depCheckSections (sections : List GanttSection) (taskIds : List String) :
    Option String :=
  match sections with
  | [] => none
  | s :: rest =>
      match depCheckTasks s.tasks taskIds with
      | some e => some e
      | none => depCheckSections rest taskIds

/-- `validateGanttData`.  The JavaScript null check on `data` has no
counterpart here: a `GanttData` value always exists. -/
def validateGanttData (data : GanttData) : Option String :=
  if data.sections = [] then some "Gantt data must have at least one section"
  else match validateSectionsLoop data.sections [] with
    | (some e, _) => some e
    | (none, seen) => depCheckSections data.sections seen

/-- `convertToMermaidSyntax`. -/
def convertToMermaidSyntax (data : GanttData) : ConversionResult :=
  match validateGanttData data with
  | some e => { success := false, error := some e }
  | none =>
      let lines : List String :=
        "gantt"
          :: ((match data.config with
              | some c => convertConfig c
              | none => [])
            ++ (data.sections.map convertSection).flatten)
      { success := true, mermaidText := some (joinSep "\n" lines) }

/-- Every task ID in the schedule, in scan order. -/
def allTaskIds (data : GanttData) : List String :=
  (data.sections.map (fun s => s.tasks.map GanttTask.id)).flatten

/-- Task line composition following the spec's words (§4.3 step 4): name, the
comma-space-joined status list omitted entirely when absent or empty, id, the
literal dependency reference when `after` is set (truthy) else the raw start,
then the duration field; joined with the fixed separator behind a 4-space
indent. -/
def specTaskLine (t : GanttTask) : String :=
  "    " ++ joinSep " : "
    ([t.name]
      ++ (match t.status with
          | none => []
          | some [] => []
          | some (a :: l) => [joinSep ", " ((a :: l).map statusText)])
      ++ [t.id]
      ++ [match t.after with
          | some a => if a = "" then t.start else "after " ++ a
          | none => t.start]
      ++ [match t.duration with
          | .dur d => formatDuration d
          | .str s => s])

/-- Config directive lines following the spec's words (§4.3 step 2): one line
per set field, in the fixed order title, dateFormat, axisFormat, tickInterval,
excludes (comma-space-joined), each behind a 4-space indent; a list field is
"set" when it has tokens to join. -/
def specConfigDirectives (c : GanttConfig) : List String :=
  (match c.title with
    | some v => if v ≠ "" then ["    title " ++ v] else []
    | none => [])
  ++ (match c.dateFormat with
    | some v => if v ≠ "" then ["    dateFormat " ++ v] else []
    | none => [])
  ++ (match c.axisFormat with
    | some v => if v ≠ "" then ["    axisFormat " ++ v] else []
    | none => [])
  ++ (match c.tickInterval with
    | some v => if v ≠ "" then ["    tickInterval " ++ v] else []
    | none => [])
  ++ (match c.excludes with
    | some l => if l ≠ [] then ["    excludes " ++ joinSep ", " l] else []
    | none => [])

/-- The task of end-to-end scenario A of the spec. -/
def exTaskA : GanttTask :=
  { id := "task1", name := "Task One", start := "2024-01-01",
    duration := .dur { value := 5, unit := "d" } }

/-- Scenario A's task with status list `[done]` (scenario B). -/
def exTaskB : GanttTask := { exTaskA with status := some [.done] }

/-- Two structurally valid tasks sharing the ID "dup" in an early section. -/
def dupSection : GanttSection :=
  { name := "A",
    tasks :=
      [{ id := "dup", name := "First", start := "2024-01-01",
         duration := .dur { value := 5, unit := "d" } },
       { id := "dup", name := "Second", start := "2024-01-02",
         duration := .dur { value := 3, unit := "d" } }] }

/-- A later section whose only task has a structural error: its name is a
single space, which trims to empty. -/
def badSection : GanttSection :=
  { name := "B",
    tasks := [{ id := "x", name := " ", start := "2024-01-03",
                duration := .dur { value := 2, unit := "d" } }] }

/-- Schedule with the duplicate ID in the first section and the structural
error in the second. -/
def dupThenBadData : GanttData := { sections := [dupSection, badSection] }

/-- Schedule whose `after` references form a two-cycle plus a self-reference,
all IDs existing. -/
def cycleData : GanttData :=
  { sections :=
      [{ name := "C",
         tasks :=
           [{ id := "a", name := "A", start := "", after := some "b",
              duration := .dur { value := 1, unit := "d" } },
            { id := "b", name := "B", start := "", after := some "a",
              duration := .dur { value := 1, unit := "d" } },
            { id := "c", name := "Self", start := "", after := some "c",
              duration := .dur { value := 1, unit := "d" } }] }] }

/-- A valid schedule without a config. -/
def noConfigData : GanttData :=
  { sections := [{ name := "Development", tasks := [exTaskA] }] }

/-- A structurally valid single-task section used as a clean prefix. -/
def goodSection : GanttSection := { name := "G", tasks := [exTaskA] }

/-- A valid task carrying both a dependency and a non-empty start date. -/
def bothTask : GanttTask :=
  { id := "t", name := "N", start := "2024-01-01",
    duration := .dur { value := 5, unit := "d" }, after := some "a" }

/-- A non-milestone task with a zero structured duration. -/
def zeroDurTask : GanttTask :=
  { id := "t", name := "N", start := "2024-01-01",
    duration := .dur { value := 0, unit := "d" } }

/-- A milestone task with a zero structured duration. -/
def zeroMilestoneTask : GanttTask :=
  { id := "t", name := "N", start := "2024-01-01",
    duration := .dur { value := 0, unit := "d" }, status := some [.milestone] }

/-- A task whose duration is the empty string. -/
def emptyDurTask : GanttTask :=
  { id := "t", name := "N", start := "2024-01-01", duration := .str "" }

/-! ### General lemmas about strings and the helpers -/

/-- A string with an empty character list is the empty string. -/
theorem string_eq_empty_of_data {s : String} (h : s.data = []) : s = "" := by
  cases s with
  | mk d =>
      cases d with
      | nil => decide
      | cons c cs => exact absurd h (List.cons_ne_nil c cs)

/-- Two appends with a common left part and pointwise different right parts
differ. -/
theorem list_append_ne_of_getElem {l1 l2 r1 r2 : List Char} (k : Nat)
    (h3 : l1[k]? ≠ l2[k]?) (h1 : k < l1.length) (h2 : k < l2.length) :
    l1 ++ r1 ≠ l2 ++ r2 := by
  intro h
  exact h3 ((List.getElem?_append_left h1).symm.trans
    ((congrArg (fun l => l[k]?) h).trans (List.getElem?_append_left h2)))

theorem msgMissingDuration_ne_msgMissingStart (id sectionName : String) :
    msgMissingDuration id sectionName ≠ msgMissingStart id sectionName := by
  intro h
  have hd := congrArg String.data h
  simp only [msgMissingDuration, msgMissingStart, String.data_append,
    List.append_assoc] at hd
  have h1 := List.append_cancel_left hd
  have h2 := List.append_cancel_left h1
  have h3 := List.append_cancel_left h2
  have h4 := List.append_cancel_left h3
  exact absurd h4 (by decide)

theorem msgInvalidFormat_ne_msgMissingStart (id s sectionName : String) :
    msgInvalidFormat id s ≠ msgMissingStart id sectionName := by
  intro h
  have hd := congrArg String.data h
  simp only [msgInvalidFormat, msgMissingStart, String.data_append,
    List.append_assoc] at hd
  have h1 := List.append_cancel_left hd
  have h2 := List.append_cancel_left h1
  exact list_append_ne_of_getElem 2 (by decide) (by decide) (by decide) h2

theorem msgInvalidValue_ne_msgMissingStart (id : String) (v : Int) (sectionName : String) :
    msgInvalidValue id v ≠ msgMissingStart id sectionName := by
  intro h
  have hd := congrArg String.data h
  simp only [msgInvalidValue, msgMissingStart, String.data_append,
    List.append_assoc] at hd
  have h1 := List.append_cancel_left hd
  have h2 := List.append_cancel_left h1
  exact list_append_ne_of_getElem 2 (by decide) (by decide) (by decide) h2

theorem msgInvalidUnit_ne_msgMissingStart (id unit sectionName : String) :
    msgInvalidUnit id unit ≠ msgMissingStart id sectionName := by
  intro h
  have hd := congrArg String.data h
  simp only [msgInvalidUnit, msgMissingStart, String.data_append,
    List.append_assoc] at hd
  have h1 := List.append_cancel_left hd
  have h2 := List.append_cancel_left h1
  exact list_append_ne_of_getElem 2 (by decide) (by decide) (by decide) h2

theorem msgInvalidValue_ne_msgInvalidUnit (id : String) (v : Int) (unit : String) :
    msgInvalidValue id v ≠ msgInvalidUnit id unit := by
  intro h
  have hd := congrArg String.data h
  simp only [msgInvalidValue, msgInvalidUnit, String.data_append,
    List.append_assoc] at hd
  have h1 := List.append_cancel_left hd
  have h2 := List.append_cancel_left h1
  exact list_append_ne_of_getElem 23 (by decide) (by decide) (by decide) h2

theorem trimJS_empty : trimJS "" = "" := by decide

/-- A string of whitespace characters trims to the empty string. -/
theorem trimJS_eq_empty {s : String} (h : s.data.all Char.isWhitespace) :
    trimJS s = "" := by
  unfold trimJS
  have h1 : s.data.dropWhile Char.isWhitespace = [] :=
    List.dropWhile_eq_nil_iff.mpr (fun x hx => List.all_eq_true.mp h x hx)
  rw [h1]
  decide

/-- Each status tag renders as a non-empty word. -/
theorem statusText_ne_empty (a : TaskStatus) : statusText a ≠ "" := by
  cases a <;> decide

/-- Joining a list headed by a non-empty string is non-empty. -/
theorem joinSep_ne_empty (sep x : String) (xs : List String) (hx : x ≠ "") :
    joinSep sep (x :: xs) ≠ "" := by
  cases xs with
  | nil => simpa [joinSep] using hx
  | cons y ys =>
      simp only [joinSep]
      intro h
      have hd : (x.data ++ sep.data) ++ (joinSep sep (y :: ys)).data = ([] : List Char) := by
        have := congrArg String.data h
        simpa [String.data_append] using this
      exact hx (string_eq_empty_of_data (List.append_eq_nil.mp (List.append_eq_nil.mp hd).1).1)

/-- A string whose trim is non-empty is itself non-empty, so the two-part
JavaScript emptiness test fails. -/
theorem not_falsy_of_trim_ne {s : String} (h : trimJS s ≠ "") :
    ¬(s = "" ∨ trimJS s = "") := by
  rintro (he | he)
  · subst he
    exact h trimJS_empty
  · exact h he

/-- Once the id, name and start checks pass, `validateTask` is exactly the
duration checks. -/
theorem validateTask_reduce (task : GanttTask) (sectionName : String)
    (hid : trimJS task.id ≠ "") (hname : trimJS task.name ≠ "")
    (hstart : optTruthy task.after = true ∨ trimJS task.start ≠ "") :
    validateTask task sectionName = validateDurationChecks task sectionName := by
  unfold validateTask
  rw [if_neg (not_falsy_of_trim_ne hid), if_neg (not_falsy_of_trim_ne hname), if_neg]
  rintro ⟨h1, h2⟩
  rcases hstart with h3 | h3
  · rw [h3] at h1
    cases h1
  · exact not_falsy_of_trim_ne h3 h2

/-- The duration checks never produce the missing start-or-dependency
message. -/
theorem validateDurationChecks_ne_missingStart (task : GanttTask) (sectionName : String) :
    validateDurationChecks task sectionName
      ≠ some (msgMissingStart task.id sectionName) := by
  cases hdur : task.duration with
  | str s =>
      simp only [validateDurationChecks, hdur, durationTruthy]
      split_ifs with h1 h2
      · exact fun h => msgMissingDuration_ne_msgMissingStart _ _ (Option.some.inj h)
      · exact fun h => msgInvalidFormat_ne_msgMissingStart _ _ _ (Option.some.inj h)
      · simp
  | dur d =>
      simp only [validateDurationChecks, hdur, durationTruthy]
      rw [if_neg (by simp)]
      split_ifs with h1 h2
      · exact fun h => msgInvalidValue_ne_msgMissingStart _ _ _ (Option.some.inj h)
      · simp
      · exact fun h => msgInvalidUnit_ne_msgMissingStart _ _ _ (Option.some.inj h)

/-- Splitting the first loop of `validateGanttData` over an append of section
lists. -/
theorem validateSectionsLoop_append (pre rest : List GanttSection) (seen : List String) :
    validateSectionsLoop (pre ++ rest) seen =
      match validateSectionsLoop pre seen with
      | (some e, s2) => (some e, s2)
      | (none, s2) => validateSectionsLoop rest s2 := by
  induction pre generalizing seen with
  | nil => simp [validateSectionsLoop]
  | cons s pre ih =>
      simp only [List.cons_append, validateSectionsLoop]
      cases validateSection s with
      | some e => rfl
      | none =>
          cases dupScan s.tasks seen with
          | inl e => rfl
          | inr seen2 => exact ih seen2

/-- When the seen set and the incoming IDs are jointly duplicate-free, the
duplicate scan succeeds and returns the IDs prepended in reverse. -/
theorem dupScan_eq (tasks : List GanttTask) (seen : List String)
    (h : (seen ++ tasks.map GanttTask.id).Nodup) :
    dupScan tasks seen = .inr ((tasks.map GanttTask.id).reverse ++ seen) := by
  induction tasks generalizing seen with
  | nil => simp [dupScan]
  | cons t rest ih =>
      have hdisj := List.disjoint_of_nodup_append h
      have hnotin : t.id ∉ seen := fun hmem => hdisj hmem (by simp)
      have hnd2 : ((t.id :: seen) ++ rest.map GanttTask.id).Nodup := by
        have hperm : List.Perm (seen ++ t.id :: rest.map GanttTask.id)
            (t.id :: (seen ++ rest.map GanttTask.id)) := List.perm_middle
        simpa using h.perm hperm
      simp only [dupScan, List.map_cons]
      rw [if_neg hnotin, ih (t.id :: seen) hnd2]
      simp

/-- When every section is structurally valid and the IDs are globally
duplicate-free, the first loop of `validateGanttData` succeeds, and the
resulting seen set holds exactly the initial set plus every task ID. -/
theorem validateSectionsLoop_clean (sections : List GanttSection) (seen : List String)
    (hsec : ∀ s ∈ sections, validateSection s = none)
    (hnd : (seen ++ (sections.map (fun s => s.tasks.map GanttTask.id)).flatten).Nodup) :
    ∃ seen2, validateSectionsLoop sections seen = (none, seen2)
      ∧ ∀ a, (a ∈ seen2 ↔ a ∈ seen
          ∨ a ∈ (sections.map (fun s => s.tasks.map GanttTask.id)).flatten) := by
  induction sections generalizing seen with
  | nil => exact ⟨seen, rfl, by simp⟩
  | cons s rest ih =>
      have hs := hsec s (by simp)
      have hnd1 : (seen ++ s.tasks.map GanttTask.id).Nodup := by
        have hsub : (seen ++ s.tasks.map GanttTask.id).Sublist
            ((seen ++ s.tasks.map GanttTask.id)
              ++ (rest.map (fun s => s.tasks.map GanttTask.id)).flatten) :=
          List.sublist_append_left _ _
        have hnd0 : ((seen ++ s.tasks.map GanttTask.id)
            ++ (rest.map (fun s => s.tasks.map GanttTask.id)).flatten).Nodup := by
          simpa [List.append_assoc] using hnd
        exact hnd0.sublist hsub
      have hperm : List.Perm
          (seen ++ (s.tasks.map GanttTask.id
            ++ (rest.map (fun s => s.tasks.map GanttTask.id)).flatten))
          (((s.tasks.map GanttTask.id).reverse ++ seen)
            ++ (rest.map (fun s => s.tasks.map GanttTask.id)).flatten) := by
        rw [← List.append_assoc]
        exact List.Perm.append_right _
          (List.perm_append_comm.trans
            (List.Perm.append_right _ (List.reverse_perm _).symm))
      have hnd2 : (((s.tasks.map GanttTask.id).reverse ++ seen)
          ++ (rest.map (fun s => s.tasks.map GanttTask.id)).flatten).Nodup := by
        have hnd0 : (seen ++ (s.tasks.map GanttTask.id
            ++ (rest.map (fun s => s.tasks.map GanttTask.id)).flatten)).Nodup := by
          simpa using hnd
        exact hnd0.perm hperm
      obtain ⟨seen2, hloop, hmem⟩ :=
        ih ((s.tasks.map GanttTask.id).reverse ++ seen)
          (fun s' hs' => hsec s' (by simp [hs'])) hnd2
      refine ⟨seen2, ?_, ?_⟩
      · simp only [validateSectionsLoop, hs]
        rw [dupScan_eq s.tasks seen hnd1]
        exact hloop
      · intro a
        rw [hmem a]
        simp only [List.mem_append, List.mem_reverse, List.map_cons, List.flatten_cons]
        tauto

/-- `depCheckTasks` succeeds exactly when every truthy dependency of the list
is a known ID. -/
theorem depCheckTasks_eq_none (tasks : List GanttTask) (taskIds : List String) :
    depCheckTasks tasks taskIds = none ↔
      ∀ t ∈ tasks, ∀ a, t.after = some a → a ≠ "" → a ∈ taskIds := by
  induction tasks with
  | nil => simp [depCheckTasks]
  | cons t rest ih =>
      cases hafter : t.after with
      | none => simp [depCheckTasks, hafter, ih, List.forall_mem_cons]
      | some a =>
          by_cases hcond : a ≠ "" ∧ a ∉ taskIds
          · simp only [depCheckTasks, hafter, if_pos hcond, List.forall_mem_cons]
            constructor
            · intro h
              cases h
            · intro h
              exact absurd (h.1 a rfl hcond.1) hcond.2
          · simp only [depCheckTasks, hafter, if_neg hcond, List.forall_mem_cons, ih]
            push_neg at hcond
            constructor
            · intro h
              refine ⟨?_, h⟩
              intro a' ha' hne
              cases Option.some.inj ha'
              exact hcond hne
            · intro h
              exact h.2

/-- `depCheckSections` succeeds exactly when every truthy dependency of every
section is a known ID. -/
theorem depCheckSections_eq_none (sections : List GanttSection) (taskIds : List String) :
    depCheckSections sections taskIds = none ↔
      ∀ s ∈ sections, ∀ t ∈ s.tasks, ∀ a, t.after = some a → a ≠ "" → a ∈ taskIds := by
  induction sections with
  | nil => simp [depCheckSections]
  | cons s rest ih =>
      cases hdep : depCheckTasks s.tasks taskIds with
      | some e =>
          simp only [depCheckSections, hdep, List.forall_mem_cons]
          constructor
          · intro h
            cases h
          · intro h
            have := (depCheckTasks_eq_none s.tasks taskIds).mpr h.1
            rw [this] at hdep
            cases hdep
      | none =>
          simp only [depCheckSections, hdep, List.forall_mem_cons, ih]
          have := (depCheckTasks_eq_none s.tasks taskIds).mp hdep
          constructor
          · intro h
            exact ⟨this, h⟩
          · intro h
            exact h.2

/-- A task with falsy `after` and empty start. -/
def missingStartTask : GanttTask :=
  { id := "t", name := "N", start := "", duration := .dur { value := 5, unit := "d" } }

/-- A task whose string duration is neither shorthand nor a date. -/
def badFmtTask : GanttTask :=
  { id := "t", name := "N", start := "2024-01-01", duration := .str "soon" }

/-- A task whose string duration is the shorthand "5d". -/
def shorthandTask : GanttTask :=
  { id := "t", name := "N", start := "2024-01-01", duration := .str "5d" }

/-! ### Claim theorems -/

/-- C1 counterexample: `dupThenBadData` has a per-task structural error in its
second section (a whitespace-only name) and a duplicate task ID completed in
its first section, yet `validateGanttData` reports the duplicate-ID error, not
the structural one — refuting the claim that the duplicate check runs only
after every per-task structural check in every section has passed. -/
theorem duplicate_reported_before_later_structural_error :
    validateGanttData dupThenBadData = some (msgDuplicate "dup")
      ∧ validateSection badSection = some (msgMissingName "x" "B")
      ∧ msgDuplicate "dup" ≠ msgMissingName "x" "B" := by decide

/-- C1 (amended): the duplicate-ID check is interleaved per section rather
than run after all sections pass: whenever every section before `s` passes
both its structural checks and the duplicate scan, a structural error in `s`
is reported (even if the duplicate occurrence precedes it inside `s` or in the
seen set); the counterexample shows a duplicate completed in an earlier
section is reported instead of a later structural error. -/
theorem structural_error_after_clean_sections
    (cfg : Option GanttConfig) (pre : List GanttSection) (s : GanttSection)
    (rest : List GanttSection) (seen : List String) (e : String)
    (hpre : validateSectionsLoop pre [] = (none, seen))
    (hs : validateSection s = some e) :
    validateGanttData { config := cfg, sections := pre ++ s :: rest } = some e := by
  have hne : pre ++ s :: rest ≠ [] := by
    intro h
    exact absurd (List.append_eq_nil.mp h).2 (List.cons_ne_nil _ _)
  show (if pre ++ s :: rest = [] then some "Gantt data must have at least one section"
    else match validateSectionsLoop (pre ++ s :: rest) [] with
      | (some e, _) => some e
      | (none, seen) => depCheckSections (pre ++ s :: rest) seen) = some e
  rw [if_neg hne, validateSectionsLoop_append pre (s :: rest) [], hpre]
  simp [validateSectionsLoop, hs]

/-- Witness for the amended C1 theorem at a concrete schedule: a clean first
section followed by a structurally broken one. -/
theorem structural_error_after_clean_sections_witness :
    validateGanttData { config := none, sections := [goodSection] ++ badSection :: [] }
      = some (msgMissingName "x" "B") :=
  structural_error_after_clean_sections none [goodSection] badSection [] ["task1"]
    (msgMissingName "x" "B") (by decide) (by decide)

/-- C2 counterexample: a task with `after` set and a non-empty `start` passes
`validateTask` — the claimed "exactly one of start or after" is not
enforced. -/
theorem both_start_and_after_accepted :
    optTruthy bothTask.after = true ∧ bothTask.start ≠ ""
      ∧ validateTask bothTask "S" = none := by decide

/-- C2 (amended): with valid id and name, `validateTask` fails with the
missing start-or-dependency error iff `after` is falsy (absent or empty) and
`start` trims to empty; whenever `after` is truthy the check passes and
validation proceeds to the duration checks — also when `start` is non-empty,
i.e. both present is accepted. -/
theorem missing_start_dependency_check (task : GanttTask) (sectionName : String)
    (hid : trimJS task.id ≠ "") (hname : trimJS task.name ≠ "") :
    (validateTask task sectionName = some (msgMissingStart task.id sectionName)
        ↔ optTruthy task.after = false ∧ trimJS task.start = "")
      ∧ (optTruthy task.after = true →
          validateTask task sectionName = validateDurationChecks task sectionName) := by
  constructor
  · constructor
    · intro h
      by_cases hc : optTruthy task.after = false ∧ (task.start = "" ∨ trimJS task.start = "")
      · refine ⟨hc.1, ?_⟩
        rcases hc.2 with h2 | h2
        · rw [h2]
          exact trimJS_empty
        · exact h2
      · rw [validateTask, if_neg (not_falsy_of_trim_ne hid),
          if_neg (not_falsy_of_trim_ne hname), if_neg hc] at h
        exact absurd h (validateDurationChecks_ne_missingStart _ _)
    · rintro ⟨h1, h2⟩
      rw [validateTask, if_neg (not_falsy_of_trim_ne hid),
        if_neg (not_falsy_of_trim_ne hname), if_pos ⟨h1, Or.inr h2⟩]
  · intro ht
    exact validateTask_reduce task sectionName hid hname (Or.inl ht)

/-- Witness for the amended C2 theorem: a task with neither start nor
dependency is rejected with the missing start-or-dependency message. -/
theorem missing_start_dependency_check_witness :
    validateTask missingStartTask "S" = some (msgMissingStart "t" "S") :=
  (missing_start_dependency_check missingStartTask "S" (by decide) (by decide)).1.mpr
    (by decide)

/-- C3: for a structured duration reached after the id, name and start checks,
the value error fires iff the value is negative or zero without the milestone
status; with an acceptable value, a unit outside d, w, h, m fires the unit
error; with both acceptable the task passes. -/
theorem duration_object_validation (task : GanttTask) (sectionName : String) (d : Duration)
    (hid : trimJS task.id ≠ "") (hname : trimJS task.name ≠ "")
    (hstart : optTruthy task.after = true ∨ trimJS task.start ≠ "")
    (hdur : task.duration = .dur d) :
    (validateTask task sectionName = some (msgInvalidValue task.id d.value)
        ↔ (d.value < 0 ∨ (isMilestone task.status = false ∧ d.value = 0)))
      ∧ (validateTask task sectionName = some (msgInvalidUnit task.id d.unit)
        ↔ (¬(d.value < 0 ∨ (isMilestone task.status = false ∧ d.value = 0))
            ∧ d.unit ∉ ["d", "w", "h", "m"]))
      ∧ ((¬(d.value < 0 ∨ (isMilestone task.status = false ∧ d.value = 0))
            ∧ d.unit ∈ ["d", "w", "h", "m"])
          → validateTask task sectionName = none) := by
  rw [validateTask_reduce task sectionName hid hname hstart]
  have hform : validateDurationChecks task sectionName
      = if d.value < 0 ∨ (isMilestone task.status = false ∧ d.value = 0) then
          some (msgInvalidValue task.id d.value)
        else if d.unit ∉ ["d", "w", "h", "m"] then some (msgInvalidUnit task.id d.unit)
        else none := by
    simp only [validateDurationChecks, hdur, durationTruthy]
    rw [if_neg (by simp)]
  rw [hform]
  by_cases hv : d.value < 0 ∨ (isMilestone task.status = false ∧ d.value = 0)
  · rw [if_pos hv]
    refine ⟨by simp [hv], ?_, ?_⟩
    · constructor
      · intro h
        exact absurd (Option.some.inj h) (msgInvalidValue_ne_msgInvalidUnit _ _ _)
      · intro h
        exact absurd hv h.1
    · intro h
      exact absurd hv h.1
  · rw [if_neg hv]
    by_cases hu : d.unit ∉ ["d", "w", "h", "m"]
    · rw [if_pos hu]
      refine ⟨?_, by simp [hv, hu], ?_⟩
      · constructor
        · intro h
          exact absurd (Option.some.inj h).symm (msgInvalidValue_ne_msgInvalidUnit _ _ _)
        · intro h
          exact absurd h hv
      · intro h
        exact absurd h.2 hu
    · rw [if_neg hu]
      refine ⟨?_, ?_, fun _ => rfl⟩
      · constructor
        · intro h
          exact Option.noConfusion h
        · intro h
          exact absurd h hv
      · constructor
        · intro h
          exact Option.noConfusion h
        · intro h
          exact absurd h.2 hu

/-- Witness for C3: zero duration is rejected for a plain task and accepted
for a milestone task. -/
theorem duration_object_validation_witness :
    validateTask zeroDurTask "S" = some (msgInvalidValue "t" 0)
      ∧ validateTask zeroMilestoneTask "S" = none := by
  constructor
  · exact (duration_object_validation zeroDurTask "S" { value := 0, unit := "d" }
      (by decide) (by decide) (Or.inr (by decide)) rfl).1.mpr (by decide)
  · exact (duration_object_validation zeroMilestoneTask "S" { value := 0, unit := "d" }
      (by decide) (by decide) (Or.inr (by decide)) rfl).2.2 (by decide)

/-- C4 counterexample: the empty string is a string duration that is neither
shorthand nor a date, yet it fails the earlier presence check with the
missing-duration message, not the invalid-format one. -/
theorem empty_string_duration_gives_missing_duration :
    validateTask emptyDurTask "S" = some (msgMissingDuration "t" "S")
      ∧ msgMissingDuration "t" "S" ≠ msgInvalidFormat "t" "" := by decide

/-- C4 (amended): for a string duration reached after the id, name and start
checks, the task passes iff the string is a shorthand token or matches the
strict date shape; any other non-empty string fails with the invalid-format
message (the empty string instead fails the presence check, as the
counterexample shows). -/
theorem duration_string_validation (task : GanttTask) (sectionName : String) (s : String)
    (hid : trimJS task.id ≠ "") (hname : trimJS task.name ≠ "")
    (hstart : optTruthy task.after = true ∨ trimJS task.start ≠ "")
    (hdur : task.duration = .str s) :
    (validateTask task sectionName = none
        ↔ (isDurationString s = true ∨ isDateString s = true))
      ∧ (s ≠ "" → isDurationString s = false → isDateString s = false →
          validateTask task sectionName = some (msgInvalidFormat task.id s)) := by
  rw [validateTask_reduce task sectionName hid hname hstart]
  by_cases hs0 : s = ""
  · subst hs0
    have hmiss : validateDurationChecks task sectionName
        = some (msgMissingDuration task.id sectionName) := by
      simp only [validateDurationChecks, hdur, durationTruthy]
      rw [if_pos (by decide)]
    rw [hmiss]
    refine ⟨?_, fun hne _ _ => absurd rfl hne⟩
    constructor
    · intro h
      exact Option.noConfusion h
    · rintro (h | h) <;> exact absurd h (by decide)
  · have hform : validateDurationChecks task sectionName
        = if isDurationString s = false ∧ isDateString s = false then
            some (msgInvalidFormat task.id s)
          else none := by
      simp only [validateDurationChecks, hdur, durationTruthy]
      rw [if_neg (by simp [hs0])]
    rw [hform]
    by_cases hfmt : isDurationString s = false ∧ isDateString s = false
    · rw [if_pos hfmt]
      refine ⟨?_, fun _ _ _ => rfl⟩
      constructor
      · intro h
        exact Option.noConfusion h
      · rintro (h | h)
        · rw [h] at hfmt
          exact Bool.noConfusion hfmt.1
        · rw [h] at hfmt
          exact Bool.noConfusion hfmt.2
    · rw [if_neg hfmt]
      refine ⟨?_, fun _ h1 h2 => absurd ⟨h1, h2⟩ hfmt⟩
      constructor
      · intro _
        by_cases h1 : isDurationString s = true
        · exact Or.inl h1
        · by_cases h2 : isDateString s = true
          · exact Or.inr h2
          · exact absurd ⟨Bool.eq_false_iff.mpr h1, Bool.eq_false_iff.mpr h2⟩ hfmt
      · intro _
        rfl

/-- Witness for C4: a malformed non-empty string duration is rejected with the
invalid-format message and a shorthand one is accepted. -/
theorem duration_string_validation_witness :
    validateTask badFmtTask "S" = some (msgInvalidFormat "t" "soon")
      ∧ validateTask shorthandTask "S" = none := by
  constructor
  · exact (duration_string_validation badFmtTask "S" "soon" (by decide) (by decide)
      (Or.inr (by decide)) rfl).2 (by decide) (by decide) (by decide)
  · exact (duration_string_validation shorthandTask "S" "5d" (by decide) (by decide)
      (Or.inr (by decide)) rfl).1.mpr (Or.inl (by decide))

/-- C5: `convertTask` composes exactly the line the spec describes — name,
optional status list, id, dependency reference or raw start, duration — joined
by the fixed separator behind the 4-space indent; the two spec scenarios give
the literal lines claimed. -/
theorem task_line_composition (t : GanttTask) :
    convertTask t = specTaskLine t
      ∧ convertTask exTaskA = "    Task One : task1 : 2024-01-01 : 5d"
      ∧ convertTask exTaskB = "    Task One : done : task1 : 2024-01-01 : 5d" := by
  refine ⟨?_, by decide, by decide⟩
  cases hst : t.status with
  | none => simp [convertTask, specTaskLine, hst, formatTaskStatus]
  | some l =>
      cases l with
      | nil => simp [convertTask, specTaskLine, hst, formatTaskStatus]
      | cons a l2 =>
          have hne : joinSep ", " (statusText a :: l2.map statusText) ≠ "" :=
            joinSep_ne_empty _ _ _ (statusText_ne_empty a)
          simp [convertTask, specTaskLine, hst, formatTaskStatus, hne]

/-- C6: `convertConfig` emits exactly the spec's directive lines — only set
fields, in the fixed order, 4-space-indented, excludes comma-space-joined; the
fields `enableClick`, `displayMode` and `excludeDates` never influence the
output; an empty config emits nothing; and an absent config leaves no
directive lines between the header and the first section. -/
theorem config_directive_emission (c : GanttConfig) (ec : Option Bool) (dm : Option String)
    (ed : Option (List String)) (data : GanttData) :
    convertConfig c = specConfigDirectives c
      ∧ convertConfig { c with enableClick := ec, displayMode := dm, excludeDates := ed }
          = convertConfig c
      ∧ convertConfig {} = ([] : List String)
      ∧ (data.config = none → validateGanttData data = none →
          convertToMermaidSyntax data
            = { success := true,
                mermaidText := some (joinSep "\n"
                  ("gantt" :: (data.sections.map convertSection).flatten)) }) := by
  refine ⟨?_, rfl, by decide, ?_⟩
  · obtain ⟨ct, cdf, cex, ced, cec, cdm, caf, cti⟩ := c
    cases ct <;> cases cdf <;> cases caf <;> cases cti <;> cases cex <;>
      simp [convertConfig, specConfigDirectives, ite_not, List.isEmpty_iff]
  · intro h1 h2
    unfold convertToMermaidSyntax
    rw [h2]
    simp [h1]

/-- Witness for C6 at the config-less schedule. -/
theorem config_directive_emission_witness :
    convertToMermaidSyntax noConfigData
      = { success := true,
          mermaidText :=
            some "gantt\n    section Development\n    Task One : task1 : 2024-01-01 : 5d" } := by
  have h := (config_directive_emission {} none none none noConfigData).2.2.2 rfl (by decide)
  exact h.trans (by decide)

/-- C7: the conversion result carries exactly the validator's verdict — the
error field equals the validator's output, the success flag is set iff there
is no error, and the emitted text is present iff the conversion succeeded, so
text and error never coexist and failure arises only from validation. -/
theorem conversion_result_contract (data : GanttData) :
    (convertToMermaidSyntax data).error = validateGanttData data
      ∧ (convertToMermaidSyntax data).success = (convertToMermaidSyntax data).error.isNone
      ∧ (convertToMermaidSyntax data).mermaidText.isSome
          = (convertToMermaidSyntax data).success := by
  unfold convertToMermaidSyntax
  cases hval : validateGanttData data <;> simp [hval]

/-- C8: once the structural and duplicate checks pass, validation succeeds iff
every truthy `after` reference names an existing task ID — only referential
existence is tested, so cyclic dependency graphs (see the witness, a two-cycle
plus a self-reference) pass. -/
theorem dependency_existence_only (data : GanttData)
    (hne : data.sections ≠ [])
    (hsec : ∀ s ∈ data.sections, validateSection s = none)
    (hnd : (allTaskIds data).Nodup) :
    validateGanttData data = none ↔
      ∀ s ∈ data.sections, ∀ t ∈ s.tasks, ∀ a, t.after = some a → a ≠ ""
        → a ∈ allTaskIds data := by
  obtain ⟨seen2, hloop, hmem⟩ := validateSectionsLoop_clean data.sections [] hsec
    (by simpa [allTaskIds] using hnd)
  unfold validateGanttData
  rw [if_neg hne, hloop]
  show depCheckSections data.sections seen2 = none ↔ _
  rw [depCheckSections_eq_none]
  constructor
  · intro h s hs t ht a ha hne2
    have h2 := h s hs t ht a ha hne2
    rcases (hmem a).mp h2 with h3 | h3
    · cases h3
    · simpa [allTaskIds] using h3
  · intro h s hs t ht a ha hne2
    exact (hmem a).mpr (Or.inr (by simpa [allTaskIds] using h s hs t ht a ha hne2))

/-- Witness for C8: the cyclic schedule is accepted. -/
theorem dependency_existence_only_witness :
    validateGanttData cycleData = none :=
  (dependency_existence_only cycleData (by decide) (by decide) (by decide)).mpr
    (by
      intro s hs t ht a ha hne2
      fin_cases hs
      fin_cases ht <;> cases Option.some.inj ha <;> decide)

/-- C9: the conversion is a pure function of its immutable input, so two calls
on the same schedule value return the same result — in particular equal
emitted texts. -/
theorem conversion_deterministic (data : GanttData) :
    convertToMermaidSyntax data = convertToMermaidSyntax data := rfl

/-- C10: a whitespace-only (hence non-empty) id, name or start of a task, or
name of a section, trims to empty and is rejected with the corresponding
missing-field error. -/
theorem whitespace_only_treated_as_missing (t : GanttTask) (sectionName : String)
    (s : GanttSection) :
    (t.id ≠ "" → t.id.data.all Char.isWhitespace →
        validateTask t sectionName = some (msgMissingId sectionName))
      ∧ (t.name ≠ "" → t.name.data.all Char.isWhitespace → trimJS t.id ≠ "" →
          validateTask t sectionName = some (msgMissingName t.id sectionName))
      ∧ (t.start ≠ "" → t.start.data.all Char.isWhitespace → trimJS t.id ≠ "" →
          trimJS t.name ≠ "" → optTruthy t.after = false →
          validateTask t sectionName = some (msgMissingStart t.id sectionName))
      ∧ (s.name ≠ "" → s.name.data.all Char.isWhitespace →
          validateSection s = some "Section is missing a name") := by
  refine ⟨?_, ?_, ?_, ?_⟩
  · intro _ hw
    rw [validateTask, if_pos (Or.inr (trimJS_eq_empty hw))]
  · intro _ hw hid
    rw [validateTask, if_neg (not_falsy_of_trim_ne hid),
      if_pos (Or.inr (trimJS_eq_empty hw))]
  · intro _ hw hid hname haf
    rw [validateTask, if_neg (not_falsy_of_trim_ne hid),
      if_neg (not_falsy_of_trim_ne hname), if_pos ⟨haf, Or.inr (trimJS_eq_empty hw)⟩]
  · intro _ hw
    rw [validateSection, if_pos (Or.inr (trimJS_eq_empty hw))]

/-- A task whose id is a single space. -/
def wsIdTask : GanttTask :=
  { id := " ", name := "N", start := "2024-01-01",
    duration := .dur { value := 5, unit := "d" } }

/-- A task whose name is two spaces. -/
def wsNameTask : GanttTask :=
  { id := "t", name := "  ", start := "2024-01-01",
    duration := .dur { value := 5, unit := "d" } }

/-- A task whose start is a single space and whose after is absent. -/
def wsStartTask : GanttTask :=
  { id := "t", name := "N", start := " ",
    duration := .dur { value := 5, unit := "d" } }

/-- A section whose name is a tab character. -/
def wsSection : GanttSection := { name := "\t", tasks := [exTaskA] }

/-- Witness for C10 on concrete whitespace-only fields. -/
theorem whitespace_only_treated_as_missing_witness :
    validateTask wsIdTask "S" = some (msgMissingId "S")
      ∧ validateTask wsNameTask "S" = some (msgMissingName "t" "S")
      ∧ validateTask wsStartTask "S" = some (msgMissingStart "t" "S")
      ∧ validateSection wsSection = some "Section is missing a name" := by
  refine ⟨?_, ?_, ?_, ?_⟩
  · exact (whitespace_only_treated_as_missing wsIdTask "S" wsSection).1
      (by decide) (by decide)
  · exact (whitespace_only_treated_as_missing wsNameTask "S" wsSection).2.1
      (by decide) (by decide) (by decide)
  · exact (whitespace_only_treated_as_missing wsStartTask "S" wsSection).2.2.1
      (by decide) (by decide) (by decide) (by decide) (by decide)
  · exact (whitespace_only_treated_as_missing exTaskA "S" wsSection).2.2.2
      (by decide) (by decide)
